import Mathlib

/-!
Shallow embedding of the RagbotFrontend client: the API fetch wrapper
(`lib/api.ts`), the two state hooks (`useFileUpload`, `useQuestions`), and the
relevant component handlers (`FileUpload.handleDrop`, `FileUpload.handleFileInput`,
`QuestionInterface.handleSubmit`).

Asynchronous calls are modelled by passing the settled outcome of the awaited
client call as an explicit argument; hook state is an explicit record threaded
through transition functions; `Date.now()` readings are explicit `Nat`
(millisecond) arguments.
-/

namespace RagFrontend

/-- A browser `File` as the client code observes it: name, MIME type
(`File.type`), byte size. -/
structure FileModel where
  name : String
  type : String
  size : Nat
deriving DecidableEq

/-- Parsed success body of `POST /upload-pdf` (`UploadResponse` in `lib/api.ts`). -/
structure UploadResponse where
  message : String
  filename : String
  chunks_created : Nat
  file_size_mb : Rat
deriving DecidableEq

/-- Parsed success body of `POST /ask-question` (`QuestionResponse` in `lib/api.ts`). -/
structure QuestionResponse where
  answer : String
  source_documents : List String
deriving DecidableEq

/-- A thrown JavaScript error as this client can produce it: the `ApiError`
class declared in `lib/api.ts` (HTTP status + message), or a plain `Error`
carrying only a message. -/
inductive JsError where
  | apiError (status : Nat) (message : String)
  | plainError (message : String)
deriving DecidableEq

/-- An HTTP response as `fetch` resolves it: numeric status, the JSON body as
consumed on the success path, and the `message`/`detail` field of the body when
the server supplies one (the client code never reads that field; it is carried
so that claims about server-supplied messages can be stated). -/
structure HttpResponse (β : Type) where
  status : Nat
  body : β
  bodyMessage : Option String
deriving DecidableEq

/-- `Response.ok` per the fetch specification: status in the 2xx range. -/
def HttpResponse.ok {β : Type} (r : HttpResponse β) : Bool :=
  200 ≤ r.status && r.status ≤ 299

/-- One HTTP request issued by the client: method and path relative to the base URL. -/
structure HttpRequest where
  method : String
  path : String
deriving DecidableEq

/-- `API_BASE_URL = process.env.NEXT_PUBLIC_API_URL || 'http://localhost:8000'`. -/
def apiBaseUrl (envUrl : Option String) : String :=
  envUrl.getD "http://localhost:8000"

/-- The absolute URL a request is sent to. -/
def requestUrl (envUrl : Option String) (req : HttpRequest) : String :=
  apiBaseUrl envUrl ++ req.path

namespace api

/-- The keys of the `api` object literal in `lib/api.ts`, in source order. -/
def operations : List String := ["uploadPdf", "askQuestion"]

/-- `api.uploadPdf(file)`: issues one `POST /upload-pdf` request carrying the
file as multipart form data; given the response, returns the parsed JSON body
when `response.ok`, and otherwise throws `new Error('Upload failed')` — a plain
`Error`, not an `ApiError`. -/
def uploadPdf (file : FileModel) (resp : HttpResponse UploadResponse) :
    HttpRequest × Except JsError UploadResponse :=
  let _ := file
  ({ method := "POST", path := "/upload-pdf" },
    if resp.ok then Except.ok resp.body
    else Except.error (JsError.plainError "Upload failed"))

/-- `api.askQuestion(question)`: issues one `POST /ask-question` request with
JSON body `{question}`; given the response, returns the parsed JSON body when
`response.ok`, and otherwise throws `new Error('Question failed')` — a plain
`Error`, not an `ApiError`. -/
def askQuestion (question : String) (resp : HttpResponse QuestionResponse) :
    HttpRequest × Except JsError QuestionResponse :=
  let _ := question
  ({ method := "POST", path := "/ask-question" },
    if resp.ok then Except.ok resp.body
    else Except.error (JsError.plainError "Question failed"))

end api

/-- State of the `useFileUpload` hook. -/
structure UploadState where
  uploading : Bool
  uploadResult : Option UploadResponse
  error : Option String
deriving DecidableEq

/-- The hook's initial state: `useState(false)`, `useState(null)`, `useState(null)`. -/
def initialUploadState : UploadState :=
  { uploading := false, uploadResult := none, error := none }

namespace useFileUpload

/-- `err instanceof ApiError ? err.message : 'Upload failed'`. -/
def uploadErrorMessage : JsError → String
  | JsError.apiError _ msg => msg
  | JsError.plainError _ => "Upload failed"

/-- The updates `uploadFile` performs before awaiting the client:
`setUploading(true); setError(null)`. -/
def uploadStart (s : UploadState) : UploadState :=
  { s with uploading := true, error := none }

/-- `useFileUpload.uploadFile(file)` as a transition on the hook state: given
the settled outcome of the awaited `api.uploadPdf` call, produces the settled
hook state and the outcome surfaced to the caller (the returned result, or the
re-thrown error). The `finally` clause clears `uploading` on both paths. -/
def uploadFile (s : UploadState) (apiResult : Except JsError UploadResponse) :
    UploadState × Except JsError UploadResponse :=
  let mid := uploadStart s
  match apiResult with
  | Except.ok result =>
      ({ mid with uploadResult := some result, uploading := false }, Except.ok result)
  | Except.error err =>
      ({ mid with error := some (uploadErrorMessage err), uploading := false },
        Except.error err)

/-- `uploadFile` composed with the actual client call `api.uploadPdf` on a
given HTTP response. -/
def uploadFileWith (s : UploadState) (file : FileModel)
    (resp : HttpResponse UploadResponse) : UploadState × Except JsError UploadResponse :=
  uploadFile s (api.uploadPdf file resp).2

/-- `useFileUpload.reset`: `setUploadResult(null); setError(null)`. -/
def reset (s : UploadState) : UploadState :=
  { s with uploadResult := none, error := none }

end useFileUpload

/-- One entry of the question history (`QuestionHistory` in `useQuestions.ts`).
`timestamp` is the `Date` value as milliseconds since the epoch. -/
structure QuestionHistory where
  id : String
  question : String
  answer : String
  source_documents : List String
  timestamp : Nat
deriving DecidableEq

/-- State of the `useQuestions` hook. -/
structure QuestionsState where
  loading : Bool
  history : List QuestionHistory
  error : Option String
deriving DecidableEq

/-- The hook's initial state: `useState(false)`, `useState([])`, `useState(null)`. -/
def initialQuestionsState : QuestionsState :=
  { loading := false, history := [], error := none }

namespace useQuestions

/-- `err instanceof ApiError ? err.message : 'Question failed'`. -/
def questionErrorMessage : JsError → String
  | JsError.apiError _ msg => msg
  | JsError.plainError _ => "Question failed"

/-- The updates `askQuestion` performs before awaiting the client:
`setLoading(true); setError(null)`. -/
def askStart (s : QuestionsState) : QuestionsState :=
  { s with loading := true, error := none }

/-- The entry `askQuestion` synthesizes on success: `id: Date.now().toString()`,
`timestamp: new Date()` — both taken from the same clock reading `now`. -/
def newEntry (question : String) (now : Nat) (result : QuestionResponse) : QuestionHistory :=
  { id := toString now
    question := question
    answer := result.answer
    source_documents := result.source_documents
    timestamp := now }

/-- `useQuestions.askQuestion(question)` as a transition on the hook state:
given the clock reading and the settled outcome of the awaited
`api.askQuestion` call, produces the settled hook state and the outcome
surfaced to the caller. On success the new entry is prepended
(`setHistory(prev => [newEntry, ...prev])`); the `finally` clause clears
`loading` on both paths. -/
def askQuestion (s : QuestionsState) (question : String) (now : Nat)
    (apiResult : Except JsError QuestionResponse) :
    QuestionsState × Except JsError QuestionResponse :=
  let mid := askStart s
  match apiResult with
  | Except.ok result =>
      ({ mid with history := newEntry question now result :: mid.history, loading := false },
        Except.ok result)
  | Except.error err =>
      ({ mid with error := some (questionErrorMessage err), loading := false },
        Except.error err)

/-- `askQuestion` composed with the actual client call `api.askQuestion` on a
given HTTP response. -/
def askQuestionWith (s : QuestionsState) (question : String) (now : Nat)
    (resp : HttpResponse QuestionResponse) :
    QuestionsState × Except JsError QuestionResponse :=
  askQuestion s question now (api.askQuestion question resp).2

/-- `useQuestions.clearHistory`: `setHistory([])`. -/
def clearHistory (s : QuestionsState) : QuestionsState :=
  { s with history := [] }

end useQuestions

namespace QuestionInterface

/-- `QuestionInterface.handleSubmit`: returns the resulting hook state and
whether `askQuestion` was invoked. Guard:
`if (!question.trim() || loading || disabled) return;` — then
`await askQuestion(question.trim())`. -/
def handleSubmit (question : String) (disabled : Bool) (s : QuestionsState)
    (now : Nat) (apiResult : Except JsError QuestionResponse) : QuestionsState × Bool :=
  if question.trim.isEmpty || s.loading || disabled then (s, false)
  else ((useQuestions.askQuestion s question.trim now apiResult).1, true)

end QuestionInterface

namespace FileUpload

/-- `FileUpload.handleDrop`: among the dropped files, the first whose MIME type
is `application/pdf`, if any; a `some` result triggers `handleFileSelect`
(an upload), a `none` result triggers nothing. -/
def handleDrop (files : List FileModel) : Option FileModel :=
  files.find? (fun f => f.type == "application/pdf")

/-- `FileUpload.handleFileInput`: `e.target.files?.[0]`; any selected file
triggers `handleFileSelect` — the handler performs no MIME-type check. -/
def handleFileInput (files : List FileModel) : Option FileModel :=
  files.head?

/-- The `accept` attribute on the hidden file input: an extension filter on the
file dialog, not a MIME-type check. -/
def fileInputAccept : String := ".pdf"

end FileUpload

/-- One recorded successful ask: the question text, the `Date.now()` reading
when it settled, and the response body. -/
structure SuccAsk where
  question : String
  now : Nat
  result : QuestionResponse
deriving DecidableEq

/-- Run a sequence of successful `askQuestion` calls against the hook state. -/
def runSuccAsks (s : QuestionsState) : List SuccAsk → QuestionsState
  | [] => s
  | a :: rest =>
      runSuccAsks (useQuestions.askQuestion s a.question a.now (Except.ok a.result)).1 rest

/-- Numeric value of a decimal digit character. -/
def digitVal (c : Char) : Nat := c.toNat - 48

/-- Decode a most-significant-first list of decimal digit characters back to a
number; left inverse of `Nat.toDigits 10`. -/
def decodeDigits (l : List Char) : Nat :=
  l.foldl (fun acc c => acc * 10 + digitVal c) 0

/-- A sample parsed upload response body, used to instantiate witnesses. -/
def sampleUpload : UploadResponse :=
  { message := "PDF uploaded", filename := "a.pdf", chunks_created := 12, file_size_mb := 1 }

/-- A sample PDF file, used to instantiate witnesses. -/
def sampleFile : FileModel :=
  { name := "a.pdf", type := "application/pdf", size := 1024 }

/-- A non-PDF file, as a file picker can deliver one despite `accept=".pdf"`. -/
def textFile : FileModel :=
  { name := "notes.txt", type := "text/plain", size := 10 }

/-- A 413 upload response whose body carries the server message "File too large". -/
def resp413 : HttpResponse UploadResponse :=
  { status := 413, body := sampleUpload, bodyMessage := some "File too large" }

/-- A 500 upload response whose body carries the server message "Internal error". -/
def resp500 : HttpResponse UploadResponse :=
  { status := 500, body := sampleUpload, bodyMessage := some "Internal error" }

/-- A sample parsed question response body, used to instantiate witnesses. -/
def sampleAnswer : QuestionResponse :=
  { answer := "X is a thing", source_documents := ["p.3"] }

/-- A 400 ask response with a server message, used to instantiate witnesses. -/
def qresp400 : HttpResponse QuestionResponse :=
  { status := 400, body := sampleAnswer, bodyMessage := some "Bad question" }

/-- A 503 ask response with a server message, used to instantiate witnesses. -/
def qresp503 : HttpResponse QuestionResponse :=
  { status := 503, body := sampleAnswer, bodyMessage := some "Service down" }

/-- A 200 ask response, used to instantiate witnesses. -/
def qresp200 : HttpResponse QuestionResponse :=
  { status := 200, body := sampleAnswer, bodyMessage := none }

/-- A 200 upload response, used to instantiate witnesses. -/
def uresp200 : HttpResponse UploadResponse :=
  { status := 200, body := sampleUpload, bodyMessage := none }

/-- Two successful asks at strictly increasing clock readings, used to
instantiate witnesses. -/
def twoAsks : List SuccAsk :=
  [{ question := "Q1", now := 1, result := sampleAnswer },
   { question := "Q2", now := 2, result := sampleAnswer }]

section DecimalRoundTrip

theorem decode_foldl_shift (l : List Char) (v : Nat) :
    l.foldl (fun acc c => acc * 10 + digitVal c) v = v * 10 ^ l.length + decodeDigits l := by
  induction l generalizing v with
  | nil => simp [decodeDigits]
  | cons c l ih =>
    have hc : decodeDigits (c :: l) = digitVal c * 10 ^ l.length + decodeDigits l := by
      have := ih (digitVal c)
      simpa [decodeDigits] using this
    simp only [List.foldl_cons, List.length_cons, hc]
    rw [ih (v * 10 + digitVal c)]
    ring

theorem digitVal_digitChar (m : Nat) (hm : m < 10) :
    digitVal (Nat.digitChar m) = m := by
  interval_cases m <;> decide

theorem decode_toDigitsCore (f : Nat) : ∀ (n : Nat) (l : List Char), n < 10 ^ f →
    decodeDigits (Nat.toDigitsCore 10 f n l) = n * 10 ^ l.length + decodeDigits l := by
  induction f with
  | zero =>
    intro n l hn
    have : n = 0 := by simpa using hn
    subst this
    simp [Nat.toDigitsCore]
  | succ f ih =>
    intro n l hn
    have hmod : n % 10 < 10 := Nat.mod_lt _ (by norm_num)
    have hsplit : 10 * (n / 10) + n % 10 = n := Nat.div_add_mod n 10
    by_cases hq : n / 10 = 0
    · have hcons : Nat.toDigitsCore 10 (f + 1) n l = Nat.digitChar (n % 10) :: l := by
        simp [Nat.toDigitsCore, hq]
      have hdec : decodeDigits (Nat.digitChar (n % 10) :: l)
          = digitVal (Nat.digitChar (n % 10)) * 10 ^ l.length + decodeDigits l := by
        have := decode_foldl_shift l (digitVal (Nat.digitChar (n % 10)))
        simpa [decodeDigits] using this
      have hn' : n = n % 10 := by omega
      rw [hcons, hdec, digitVal_digitChar _ hmod, ← hn']
    · have hrec : Nat.toDigitsCore 10 (f + 1) n l
          = Nat.toDigitsCore 10 f (n / 10) (Nat.digitChar (n % 10) :: l) := by
        simp [Nat.toDigitsCore, hq]
      have hlt : n / 10 < 10 ^ f := by
        have h10 : (0 : Nat) < 10 := by norm_num
        rw [Nat.div_lt_iff_lt_mul h10]
        calc n < 10 ^ (f + 1) := hn
          _ = 10 ^ f * 10 := by ring
      have hdec : decodeDigits (Nat.digitChar (n % 10) :: l)
          = digitVal (Nat.digitChar (n % 10)) * 10 ^ l.length + decodeDigits l := by
        have := decode_foldl_shift l (digitVal (Nat.digitChar (n % 10)))
        simpa [decodeDigits] using this
      rw [hrec, ih (n / 10) _ hlt]
      simp only [List.length_cons, hdec, digitVal_digitChar _ hmod]
      have : n * 10 ^ l.length = (10 * (n / 10) + n % 10) * 10 ^ l.length := by
        rw [hsplit]
      rw [this]
      ring

theorem decode_toDigits (n : Nat) : decodeDigits (Nat.toDigits 10 n) = n := by
  have h1 : n < 2 ^ n := Nat.lt_two_pow n
  have h2 : (2 : Nat) ^ n ≤ 10 ^ n := Nat.pow_le_pow_left (by norm_num) n
  have h3 : (10 : Nat) ^ n ≤ 10 ^ (n + 1) := Nat.pow_le_pow_right (by norm_num) (Nat.le_succ n)
  have hn : n < 10 ^ (n + 1) := lt_of_lt_of_le h1 (le_trans h2 h3)
  have := decode_toDigitsCore (n + 1) n [] hn
  simpa [Nat.toDigits, decodeDigits] using this

theorem natRepr_injective : Function.Injective Nat.repr := by
  intro a b h
  have hdata : Nat.toDigits 10 a = Nat.toDigits 10 b := by
    have := congrArg String.data h
    simpa [Nat.repr, List.asString] using this
  calc a = decodeDigits (Nat.toDigits 10 a) := (decode_toDigits a).symm
    _ = decodeDigits (Nat.toDigits 10 b) := by rw [hdata]
    _ = b := decode_toDigits b

theorem natToString_injective : Function.Injective (fun n : Nat => toString n) :=
  natRepr_injective

end DecimalRoundTrip

/-- A run of successful asks prepends exactly the synthesized entries, newest
first, and leaves every pre-existing entry untouched at the back of the list. -/
theorem runSuccAsks_history (ops : List SuccAsk) : ∀ s : QuestionsState,
    (runSuccAsks s ops).history
      = (ops.map (fun a => useQuestions.newEntry a.question a.now a.result)).reverse
          ++ s.history := by
  induction ops with
  | nil => intro s; simp [runSuccAsks]
  | cons a rest ih =>
    intro s
    have hstep : (useQuestions.askQuestion s a.question a.now (Except.ok a.result)).1.history
        = useQuestions.newEntry a.question a.now a.result :: s.history := by
      simp [useQuestions.askQuestion, useQuestions.askStart]
    have := ih (useQuestions.askQuestion s a.question a.now (Except.ok a.result)).1
    simp only [runSuccAsks] at *
    rw [this, hstep]
    simp

/-- Claim C2: `uploadFile` sets `uploading := true` and clears the error before
awaiting the client; on success it stores the response as `uploadResult` and
returns it; on failure it stores the display message and re-throws the error;
on both paths the `finally` clause sets `uploading := false`, and `uploading`
is `false` in the initial state and after the call settles. -/
theorem c2_uploadFile_lifecycle (s : UploadState) (res : Except JsError UploadResponse) :
    (useFileUpload.uploadStart s).uploading = true
    ∧ (useFileUpload.uploadStart s).error = none
    ∧ (useFileUpload.uploadFile s res).1.uploading = false
    ∧ initialUploadState.uploading = false
    ∧ (∀ r, res = Except.ok r →
        (useFileUpload.uploadFile s res).1.uploadResult = some r
        ∧ (useFileUpload.uploadFile s res).2 = Except.ok r)
    ∧ (∀ e, res = Except.error e →
        (useFileUpload.uploadFile s res).1.error
            = some (useFileUpload.uploadErrorMessage e)
        ∧ (useFileUpload.uploadFile s res).2 = Except.error e) := by
  refine ⟨rfl, rfl, ?_, rfl, ?_, ?_⟩
  · cases res <;> simp [useFileUpload.uploadFile, useFileUpload.uploadStart]
  · intro r hr
    subst hr
    exact ⟨rfl, rfl⟩
  · intro e he
    subst he
    exact ⟨rfl, rfl⟩

/-- Witness for C2 at a concrete successful upload. -/
theorem c2_uploadFile_lifecycle_witness :
    (useFileUpload.uploadFile initialUploadState (Except.ok sampleUpload)).1.uploading = false
    ∧ (useFileUpload.uploadFile initialUploadState
        (Except.ok sampleUpload)).1.uploadResult = some sampleUpload :=
  ⟨(c2_uploadFile_lifecycle initialUploadState (Except.ok sampleUpload)).2.2.1,
    ((c2_uploadFile_lifecycle initialUploadState
      (Except.ok sampleUpload)).2.2.2.2.1 sampleUpload rfl).1⟩

/-- Claim C3: every successful `askQuestion` prepends exactly the one entry it
synthesizes, so history is newest-first: after asking `q1` then `q2` (both
successful), entry 0 carries `q2` and entry 1 carries `q1`. -/
theorem c3_history_newest_first (s : QuestionsState) (q1 q2 : String) (t1 t2 : Nat)
    (r1 r2 : QuestionResponse) :
    (useQuestions.askQuestion s q1 t1 (Except.ok r1)).1.history
        = useQuestions.newEntry q1 t1 r1 :: s.history
    ∧ (Option.map QuestionHistory.question
        ((useQuestions.askQuestion
          (useQuestions.askQuestion s q1 t1 (Except.ok r1)).1
          q2 t2 (Except.ok r2)).1.history[0]?)) = some q2
    ∧ (Option.map QuestionHistory.question
        ((useQuestions.askQuestion
          (useQuestions.askQuestion s q1 t1 (Except.ok r1)).1
          q2 t2 (Except.ok r2)).1.history[1]?)) = some q1 := by
  refine ⟨rfl, ?_, ?_⟩ <;>
    simp [useQuestions.askQuestion, useQuestions.askStart, useQuestions.newEntry]

/-- Claim C9: a failed `askQuestion` leaves the history exactly as it was; the
failure branch only stores the display message, clears `loading`, and re-throws. -/
theorem c9_failure_preserves_history (s : QuestionsState) (q : String) (now : Nat)
    (e : JsError) :
    (useQuestions.askQuestion s q now (Except.error e)).1.history = s.history
    ∧ (useQuestions.askQuestion s q now (Except.error e)).1.error
        = some (useQuestions.questionErrorMessage e)
    ∧ (useQuestions.askQuestion s q now (Except.error e)).1.loading = false
    ∧ (useQuestions.askQuestion s q now (Except.error e)).2 = Except.error e := by
  exact ⟨rfl, rfl, rfl, rfl⟩

/-- Claim C5, counterexample: neither `clearHistory` nor `reset` returns the
hook's full state to its initial shape — `clearHistory` leaves a stored error
in place, and `reset` leaves `uploading` in place. -/
theorem c5_counterexample :
    useQuestions.clearHistory
        { loading := false, history := [], error := some "Question failed" }
      ≠ initialQuestionsState
    ∧ useFileUpload.reset { uploading := true, uploadResult := none, error := none }
      ≠ initialUploadState := by
  constructor <;> decide

/-- Claim C5, amended: `clearHistory` empties the history unconditionally but
leaves `error` and `loading` unchanged; `reset` clears `result` and `error`
together but leaves `uploading` unchanged. -/
theorem c5_clear_reset_amended (s : QuestionsState) (u : UploadState) :
    (useQuestions.clearHistory s).history = []
    ∧ (useQuestions.clearHistory s).error = s.error
    ∧ (useQuestions.clearHistory s).loading = s.loading
    ∧ (useFileUpload.reset u).uploadResult = none
    ∧ (useFileUpload.reset u).error = none
    ∧ (useFileUpload.reset u).uploading = u.uploading :=
  ⟨rfl, rfl, rfl, rfl, rfl, rfl⟩

/-- Claim C1, counterexample: on a 413 response whose body carries the server
message "File too large", `api.uploadPdf` throws a plain
`Error('Upload failed')` — not a typed `ApiError` carrying the status 413 and
the server message — and the hook stores the constant "Upload failed", not the
server-provided message. -/
theorem c1_counterexample :
    (api.uploadPdf sampleFile resp413).2 = Except.error (JsError.plainError "Upload failed")
    ∧ (api.uploadPdf sampleFile resp413).2
        ≠ Except.error (JsError.apiError 413 "File too large")
    ∧ (useFileUpload.uploadFileWith initialUploadState sampleFile resp413).1.error
        = some "Upload failed"
    ∧ resp413.bodyMessage = some "File too large"
    ∧ (useFileUpload.uploadFileWith initialUploadState sampleFile resp413).1.error
        ≠ resp413.bodyMessage
    ∧ (useFileUpload.uploadFileWith initialUploadState sampleFile resp413).1.uploadResult
        = none := by
  refine ⟨rfl, ?_, rfl, rfl, ?_, rfl⟩
  · intro h
    injection h with h1
    exact JsError.noConfusion h1
  · decide

/-- Claim C1, amended: on a non-2xx response the client call fails with a plain
`Error` carrying a constant generic message ("Upload failed" / "Question
failed") — not a typed `ApiError` with the HTTP status and the server-supplied
message (the `ApiError` class is declared but never thrown) — and the upload
hook then stores that constant fallback as its error state, leaving the stored
result unchanged (hence absent when it was absent). -/
theorem c1_generic_error_amended (file : FileModel) (s : UploadState)
    (resp : HttpResponse UploadResponse) (q : String)
    (qresp : HttpResponse QuestionResponse)
    (hu : resp.ok = false) (hq : qresp.ok = false) :
    (api.uploadPdf file resp).2 = Except.error (JsError.plainError "Upload failed")
    ∧ (api.askQuestion q qresp).2 = Except.error (JsError.plainError "Question failed")
    ∧ (useFileUpload.uploadFileWith s file resp).1.error = some "Upload failed"
    ∧ (useFileUpload.uploadFileWith s file resp).1.uploadResult = s.uploadResult := by
  refine ⟨?_, ?_, ?_, ?_⟩ <;>
    simp [api.uploadPdf, api.askQuestion, hu, hq, useFileUpload.uploadFileWith,
      useFileUpload.uploadFile, useFileUpload.uploadStart, useFileUpload.uploadErrorMessage]

/-- Witness for C1 (amended) at the concrete 413 and 400 responses. -/
theorem c1_generic_error_amended_witness :
    HttpResponse.ok resp413 = false
    ∧ HttpResponse.ok qresp400 = false
    ∧ (useFileUpload.uploadFileWith initialUploadState sampleFile resp413).1.error
        = some "Upload failed" :=
  ⟨by decide, by decide,
    (c1_generic_error_amended sampleFile initialUploadState resp413 "Q" qresp400
      (by decide) (by decide)).2.2.1⟩

/-- Claim C4: the submit handler is a no-op (no API call, state unchanged) when
the trimmed input is blank, a request is in flight, or the interface is
disabled; when it proceeds and the call succeeds, exactly the one synthesized
entry is prepended to the history. -/
theorem c4_handleSubmit_guard (q : String) (d : Bool) (s : QuestionsState) (now : Nat)
    (res : Except JsError QuestionResponse) :
    ((q.trim.isEmpty || s.loading || d) = true →
        QuestionInterface.handleSubmit q d s now res = (s, false))
    ∧ ((q.trim.isEmpty || s.loading || d) = false → ∀ r, res = Except.ok r →
        (QuestionInterface.handleSubmit q d s now res).1.history
          = useQuestions.newEntry q.trim now r :: s.history
        ∧ (QuestionInterface.handleSubmit q d s now res).2 = true) := by
  constructor
  · intro h
    simp [QuestionInterface.handleSubmit, h]
  · intro h r hr
    subst hr
    constructor <;>
      simp [QuestionInterface.handleSubmit, h, useQuestions.askQuestion, useQuestions.askStart]

/-- Witness for C4 while a request is in flight: the guarded submit leaves the
state untouched and makes no call. -/
theorem c4_handleSubmit_guard_witness :
    (("Q".trim.isEmpty
        || ({ loading := true, history := [], error := none } : QuestionsState).loading
        || false) = true)
    ∧ QuestionInterface.handleSubmit "Q" false
        { loading := true, history := [], error := none } 7
        (Except.ok sampleAnswer)
      = ({ loading := true, history := [], error := none }, false) :=
  ⟨by simp,
    (c4_handleSubmit_guard "Q" false { loading := true, history := [], error := none } 7
      (Except.ok sampleAnswer)).1 (by simp)⟩

/-- Claim C7, counterexample: the `api` object has no `checkHealth`,
`resetRemoteState`, or `uploadDocument` key — its only operations are
`uploadPdf` and `askQuestion`. -/
theorem c7_counterexample :
    ¬ "checkHealth" ∈ api.operations
    ∧ ¬ "resetRemoteState" ∈ api.operations
    ∧ ¬ "uploadDocument" ∈ api.operations
    ∧ api.operations = ["uploadPdf", "askQuestion"] := by
  refine ⟨?_, ?_, ?_, rfl⟩ <;> decide

/-- Claim C7, amended: the API client provides exactly two operations —
`uploadPdf(file)` returning the parsed upload body and `askQuestion(text)`
returning `{answer, source_documents}` — each issuing one HTTP request to the
configured base URL; there is no health-check or reset operation. -/
theorem c7_two_operations_amended (file : FileModel) (resp : HttpResponse UploadResponse)
    (q : String) (qresp : HttpResponse QuestionResponse) (envUrl : Option String) :
    api.operations = ["uploadPdf", "askQuestion"]
    ∧ (api.uploadPdf file resp).1 = { method := "POST", path := "/upload-pdf" }
    ∧ (api.askQuestion q qresp).1 = { method := "POST", path := "/ask-question" }
    ∧ requestUrl envUrl (api.uploadPdf file resp).1 = apiBaseUrl envUrl ++ "/upload-pdf"
    ∧ requestUrl envUrl (api.askQuestion q qresp).1 = apiBaseUrl envUrl ++ "/ask-question"
    ∧ (resp.ok = true → (api.uploadPdf file resp).2 = Except.ok resp.body)
    ∧ (qresp.ok = true → (api.askQuestion q qresp).2 = Except.ok qresp.body) := by
  refine ⟨rfl, rfl, rfl, rfl, rfl, ?_, ?_⟩ <;>
    · intro h
      simp [api.uploadPdf, api.askQuestion, h]

/-- Witness for C7 (amended) at a concrete 200 response. -/
theorem c7_two_operations_amended_witness :
    HttpResponse.ok qresp200 = true
    ∧ (api.askQuestion "What is X?" qresp200).2 = Except.ok sampleAnswer :=
  ⟨by decide,
    (c7_two_operations_amended sampleFile uresp200 "What is X?" qresp200 none).2.2.2.2.2.2
      (by decide)⟩

/-- Claim C8, counterexample: the file-picker path performs no MIME-type check —
a selected `text/plain` file is handed to the upload trigger. -/
theorem c8_counterexample :
    FileUpload.handleFileInput [textFile] = some textFile
    ∧ textFile.type ≠ "application/pdf" := by
  exact ⟨rfl, by decide⟩

/-- Claim C8, amended: the drop path triggers an upload only for the first
dropped file whose MIME type is `application/pdf` and triggers nothing when no
dropped file has that type; the file-picker path performs no MIME-type check —
it hands over the first selected file of any type, restricted only by the
input's `accept=".pdf"` extension filter. -/
theorem c8_pdf_filter_amended (files rest : List FileModel) (f g : FileModel) :
    (FileUpload.handleDrop files = some f → f ∈ files ∧ f.type = "application/pdf")
    ∧ ((∀ x ∈ files, x.type ≠ "application/pdf") → FileUpload.handleDrop files = none)
    ∧ FileUpload.handleDrop (g :: rest)
        = (if g.type = "application/pdf" then some g else FileUpload.handleDrop rest)
    ∧ FileUpload.handleFileInput files = files.head?
    ∧ FileUpload.fileInputAccept = ".pdf" := by
  refine ⟨?_, ?_, ?_, rfl, rfl⟩
  · intro h
    exact ⟨List.mem_of_find?_eq_some h, by simpa using List.find?_some h⟩
  · intro h
    refine List.find?_eq_none.mpr ?_
    intro x hx
    simpa using h x hx
  · by_cases hg : g.type = "application/pdf"
    · simp [FileUpload.handleDrop, List.find?, hg]
    · have hb : (g.type == "application/pdf") = false := beq_eq_false_iff_ne.mpr hg
      simp [FileUpload.handleDrop, List.find?, hb, hg]

/-- Witness for C8 (amended): on a drop of a text file followed by a PDF, the
PDF is the one handed to the upload trigger. -/
theorem c8_pdf_filter_amended_witness :
    FileUpload.handleDrop [textFile, sampleFile] = some sampleFile
    ∧ sampleFile ∈ [textFile, sampleFile]
    ∧ sampleFile.type = "application/pdf" := by
  refine ⟨by decide, ?_, ?_⟩
  · exact ((c8_pdf_filter_amended [textFile, sampleFile] [] sampleFile textFile).1
      (by decide)).1
  · exact ((c8_pdf_filter_amended [textFile, sampleFile] [] sampleFile textFile).1
      (by decide)).2

/-- Claim C6, counterexample: two successful asks within the same millisecond
(`Date.now()` reading 5 both times) produce two history entries with the same
identifier "5", so identifiers are not pairwise unique in every reachable
history. -/
theorem c6_counterexample :
    ¬ (((useQuestions.askQuestion
          (useQuestions.askQuestion initialQuestionsState "Q1" 5
            (Except.ok sampleAnswer)).1
          "Q2" 5 (Except.ok sampleAnswer)).1.history.map QuestionHistory.id).Pairwise
        (fun a b => a ≠ b)) := by
  intro h
  rw [show ((useQuestions.askQuestion
        (useQuestions.askQuestion initialQuestionsState "Q1" 5
          (Except.ok sampleAnswer)).1
        "Q2" 5 (Except.ok sampleAnswer)).1.history.map QuestionHistory.id)
      = ["5", "5"] from rfl] at h
  exact (List.pairwise_cons.mp h).1 "5" (by simp) rfl

/-- Claim C6, amended: identifiers are derived from the creation-time clock
reading, so in every history reached by successful asks whose clock readings
strictly increase (no two in the same millisecond), the identifiers are
pairwise unique; and entries are immutable once created — every run of asks
only prepends its newly synthesized entries, leaving all existing entries
untouched. -/
theorem c6_unique_ids_amended (ops : List SuccAsk)
    (hmono : (ops.map SuccAsk.now).Pairwise (fun a b => a < b)) :
    (((runSuccAsks initialQuestionsState ops).history.map QuestionHistory.id).Pairwise
        (fun a b => a ≠ b))
    ∧ (∀ s : QuestionsState, (runSuccAsks s ops).history
        = (ops.map (fun a => useQuestions.newEntry a.question a.now a.result)).reverse
            ++ s.history) := by
  constructor
  · rw [runSuccAsks_history ops initialQuestionsState]
    have hinit : initialQuestionsState.history = [] := rfl
    rw [hinit, List.append_nil, List.map_reverse, List.map_map, List.pairwise_reverse,
      List.pairwise_map]
    have hmono' : ops.Pairwise (fun a b => a.now < b.now) := List.pairwise_map.mp hmono
    refine hmono'.imp ?_
    intro a b hab heq
    have hid : (QuestionHistory.id ∘ fun x => useQuestions.newEntry x.question x.now x.result)
        = fun x : SuccAsk => toString x.now := rfl
    rw [hid] at heq
    have := natToString_injective heq
    omega
  · intro s
    exact runSuccAsks_history ops s

/-- Witness for C6 (amended) at two asks with strictly increasing clock readings. -/
theorem c6_unique_ids_amended_witness :
    ((twoAsks.map SuccAsk.now).Pairwise (fun a b => a < b))
    ∧ (((runSuccAsks initialQuestionsState twoAsks).history.map QuestionHistory.id).Pairwise
        (fun a b => a ≠ b)) :=
  ⟨by decide, (c6_unique_ids_amended twoAsks (by decide)).1⟩

/-- Claim C10: after any failed call, the stored error message is the constant
fallback — "Upload failed" for the upload hook, "Question failed" for the
question hook — independent of the HTTP status and response body, because the
client throws a plain `Error` and never an `ApiError`, so the hooks'
`instanceof ApiError` branch is never taken. -/
theorem c10_error_independent_of_response (s1 s2 : UploadState) (f1 f2 : FileModel)
    (r1 r2 : HttpResponse UploadResponse) (t1 t2 : QuestionsState) (q1 q2 : String)
    (n1 n2 : Nat) (p1 p2 : HttpResponse QuestionResponse)
    (h1 : r1.ok = false) (h2 : r2.ok = false)
    (g1 : p1.ok = false) (g2 : p2.ok = false) :
    (useFileUpload.uploadFileWith s1 f1 r1).1.error = some "Upload failed"
    ∧ (useFileUpload.uploadFileWith s2 f2 r2).1.error
        = (useFileUpload.uploadFileWith s1 f1 r1).1.error
    ∧ (useQuestions.askQuestionWith t1 q1 n1 p1).1.error = some "Question failed"
    ∧ (useQuestions.askQuestionWith t2 q2 n2 p2).1.error
        = (useQuestions.askQuestionWith t1 q1 n1 p1).1.error
    ∧ (∀ (r : HttpResponse UploadResponse) (st : Nat) (msg : String),
        (api.uploadPdf f1 r).2 ≠ Except.error (JsError.apiError st msg))
    ∧ (∀ (p : HttpResponse QuestionResponse) (st : Nat) (msg : String),
        (api.askQuestion q1 p).2 ≠ Except.error (JsError.apiError st msg)) := by
  refine ⟨?_, ?_, ?_, ?_, ?_, ?_⟩
  · simp [useFileUpload.uploadFileWith, useFileUpload.uploadFile, useFileUpload.uploadStart,
      useFileUpload.uploadErrorMessage, api.uploadPdf, h1]
  · simp [useFileUpload.uploadFileWith, useFileUpload.uploadFile, useFileUpload.uploadStart,
      useFileUpload.uploadErrorMessage, api.uploadPdf, h1, h2]
  · simp [useQuestions.askQuestionWith, useQuestions.askQuestion, useQuestions.askStart,
      useQuestions.questionErrorMessage, api.askQuestion, g1]
  · simp [useQuestions.askQuestionWith, useQuestions.askQuestion, useQuestions.askStart,
      useQuestions.questionErrorMessage, api.askQuestion, g1, g2]
  · intro r st msg h
    by_cases hr : r.ok
    · simp [api.uploadPdf, hr] at h
    · simp [api.uploadPdf, hr] at h
  · intro p st msg h
    by_cases hp : p.ok
    · simp [api.askQuestion, hp] at h
    · simp [api.askQuestion, hp] at h

/-- Witness for C10 at a concrete 413 and a concrete 500 failure: the stored
messages coincide. -/
theorem c10_error_independent_of_response_witness :
    HttpResponse.ok resp413 = false
    ∧ HttpResponse.ok resp500 = false
    ∧ HttpResponse.ok qresp400 = false
    ∧ HttpResponse.ok qresp503 = false
    ∧ (useFileUpload.uploadFileWith initialUploadState sampleFile resp500).1.error
        = (useFileUpload.uploadFileWith initialUploadState sampleFile resp413).1.error :=
  ⟨by decide, by decide, by decide, by decide,
    (c10_error_independent_of_response initialUploadState initialUploadState
      sampleFile sampleFile resp413 resp500 initialQuestionsState initialQuestionsState
      "Q1" "Q2" 1 2 qresp400 qresp503
      (by decide) (by decide) (by decide) (by decide)).2.1⟩

end RagFrontend
